import Mathlib

/-!
Verification of the WireGuard management layer
(`app/utils/wireguard.py`, `app/routers/metrics.py`).

The Python code is shallowly embedded: each method becomes a Lean
function over explicit inputs (the raw stdout of the control-plane
command, the config-file text, the set of in-use addresses, ...),
with external command execution modelled as an `Except String String`
result.  Python string primitives (`split`, `strip`, `isdigit`,
`int(...)`, `startswith`, `in`) are modelled by the `py*` helpers
below, implemented by structural recursion over character lists so
that every definition evaluates by kernel reduction.
-/

namespace WG

/-- Worker for `pySplit`: scans the character list left to right,
splitting at each non-overlapping occurrence of `sep` (nonempty); `fuel`
bounds the recursion and is chosen large enough to never run out. -/
def splitGo (sep : List Char) : Nat → List Char → List Char → List (List Char)
  | 0, s, cur => [cur ++ s]
  | fuel + 1, s, cur =>
    match s with
    | [] => [cur]
    | c :: rest =>
      if sep.isPrefixOf (c :: rest) then
        cur :: splitGo sep fuel ((c :: rest).drop sep.length) []
      else splitGo sep fuel rest (cur ++ [c])

/-- Python `s.split(sep)` for a nonempty separator. -/
def pySplit (sep s : String) : List String :=
  (splitGo sep.toList (s.toList.length + 1) s.toList []).map String.mk

/-- Python `s.strip()` (ASCII whitespace). -/
def pyStrip (s : String) : String :=
  String.mk (((s.toList.dropWhile Char.isWhitespace).reverse.dropWhile
    Char.isWhitespace).reverse)

/-- Python `s.startswith(pre)`. -/
def pyStartsWith (s pre : String) : Bool :=
  pre.toList.isPrefixOf s.toList

/-- Python `str.isdigit()` restricted to ASCII (all inputs here are ASCII):
true iff the string is nonempty and every character is a decimal digit. -/
def pyIsDigit (s : String) : Bool :=
  !s.toList.isEmpty && s.toList.all Char.isDigit

/-- Numeric value of an all-digit character list. -/
def digitsVal (l : List Char) : Nat :=
  l.foldl (fun a c => a * 10 + (c.toNat - 48)) 0

/-- Python `int(s)` on ASCII input: strips surrounding whitespace, accepts
an optional `-` sign followed by at least one digit; `none` models
`ValueError`. -/
def pyInt (s : String) : Option Int :=
  match (pyStrip s).toList with
  | '-' :: rest =>
    if !rest.isEmpty && rest.all Char.isDigit then some (-(digitsVal rest : Int))
    else none
  | t =>
    if !t.isEmpty && t.all Char.isDigit then some (digitsVal t)
    else none

/-- Contiguous-sublist test on character lists. -/
def containsSub (n : List Char) : List Char → Bool
  | [] => n.isEmpty
  | c :: rest => n.isPrefixOf (c :: rest) || containsSub n rest

/-- Python `needle in hay` on strings: substring containment. -/
def pyIn (needle hay : String) : Bool :=
  containsSub needle.toList hay.toList

/-- Python `s.split(sep, 1)[1]`: everything after the first occurrence of
`sep` (callers only use it when `sep` occurs in `s`). -/
def pySplit1After (sep s : String) : String :=
  String.intercalate sep (pySplit sep s).tail

/-- One parsed peer record as produced by `dump_peers` (the `peer_data`
dict).  `latest_handshake` is kept as the unix epoch value that
`datetime.fromtimestamp` was applied to. -/
structure DumpPeer where
  public_key : String
  pre_shared_key : Option String
  endpoint : Option String
  allowed_ips : List String
  ipv4_address : Option String
  ipv6_address : Option String
  latest_handshake : Option Int
  transfer_rx : Nat
  transfer_tx : Nat
  persistent_keepalive : Option String
  deriving Repr, DecidableEq

/-- The `for ip in allowed_ips_list` classification loop of `dump_peers`:
entries containing `/` have their address part classified IPv6 iff it
contains `:`, last assignment wins. -/
def classifyIps (ips : List String) : Option String × Option String :=
  ips.foldl
    (fun (acc : Option String × Option String) ip =>
      if pyIn "/" ip then
        let ip_addr := (pySplit "/" ip).headD ""
        if pyIn ":" ip_addr then (acc.1, some ip_addr)
        else (some ip_addr, acc.2)
      else acc)
    (none, none)

/-- The handshake-timestamp conversion of `dump_peers`: applied when the
field is nonempty and not `"0"`; a non-integer raises `ValueError`,
caught and turned into `None`. -/
def parseHandshake (latest_handshake : String) : Option Int :=
  if latest_handshake ≠ "" && latest_handshake ≠ "0" then
    pyInt latest_handshake
  else none

/-- The body of the per-line `try` block of `dump_peers`, applied to the
tab-split fields of a line already known to have at least 8 fields. -/
def parsePeerParts (parts : List String) : DumpPeer :=
  let p0 := parts.getD 0 ""
  let p1 := parts.getD 1 ""
  let p2 := parts.getD 2 ""
  let p3 := parts.getD 3 ""
  let p4 := parts.getD 4 ""
  let p5 := parts.getD 5 ""
  let p6 := parts.getD 6 ""
  let allowed_ips_list :=
    if p3 ≠ "" then (pySplit "," p3).map pyStrip else []
  let addrs := classifyIps allowed_ips_list
  { public_key := p0
    pre_shared_key := if p1 ≠ "(none)" then some p1 else none
    endpoint := if p2 ≠ "(none)" then some p2 else none
    allowed_ips := allowed_ips_list
    ipv4_address := addrs.1
    ipv6_address := addrs.2
    latest_handshake := parseHandshake p4
    transfer_rx := if pyIsDigit p5 then digitsVal p5.toList else 0
    transfer_tx := if pyIsDigit p6 then digitsVal p6.toList else 0
    persistent_keepalive := parts.get? 7 }

/-- The peer-line loop of `dump_peers` (over `lines[1:]`): blank lines and
lines with fewer than 8 tab-separated fields are skipped. -/
def processPeerLines (lines : List String) : List DumpPeer :=
  match lines with
  | [] => []
  | line :: rest =>
    if pyStrip line = "" then processPeerLines rest
    else
      let parts := pySplit "\t" line
      if parts.length < 8 then processPeerLines rest
      else parsePeerParts parts :: processPeerLines rest

/-- `WireGuardManager.dump_peers`, as a function of the result of the
control-plane call `wg show <iface> dump` (`_exec` returns
`stdout.strip()`; any raised exception is the `error` case, turned into
an empty list by the outer `except`). -/
def dump_peers (execResult : Except String String) : List DumpPeer :=
  match execResult with
  | .error _ => []
  | .ok stdout =>
    let output := pyStrip stdout
    if output = "" then []
    else
      let lines := pySplit "\n" (pyStrip output)
      processPeerLines (lines.drop 1)

/-- One iteration of the line loop of
`WireGuardManager._remove_peer_from_config`: state is
`(skip_peer, new_lines)`. -/
def removePeerStep (public_key : String) (st : Bool × List String)
    (line : String) : Bool × List String :=
  let skip_peer := st.1
  let acc := st.2
  if pyStrip line = "[Peer]" then (true, acc)
  else if skip_peer then
    if pyStartsWith (pyStrip line) "PublicKey = " then
      let peer_key := pyStrip (pySplit1After "=" line)
      if peer_key = public_key then (true, acc)
      else (false, acc ++ ["[Peer]", line])
    else if pyStrip line ≠ "" &&
        !pyStartsWith (pyStrip line) "PublicKey" &&
        !pyStartsWith (pyStrip line) "PresharedKey" &&
        !pyStartsWith (pyStrip line) "AllowedIPs" &&
        !pyStartsWith (pyStrip line) "PersistentKeepalive" &&
        !pyStartsWith (pyStrip line) "Endpoint" then
      ((false, (if !pyStartsWith (pyStrip line) "[" then acc ++ ["[Peer]"] else acc)
        ++ [line]))
    else (true, acc ++ [line])
  else (skip_peer, acc ++ [line])

/-- `WireGuardManager._remove_peer_from_config` as a pure transformation of
the config-file text (the surrounding container `cat`/write-back and the
catch-all `except` are the I/O shell around this document rewrite). -/
def remove_peer_from_config (public_key content : String) : String :=
  let lines := pySplit "\n" content
  let res := lines.foldl (removePeerStep public_key) (false, [])
  String.intercalate "\n" res.2

/-- `base_network ++ "." ++ str(i)`: the candidate address string formed in
the allocation loop of `get_next_available_ip`. -/
def mkIp (base : String) (i : Nat) : String :=
  base ++ "." ++ toString i

/-- The `for i in range(2, 255)` scan of `get_next_available_ip`: `fuel`
is the number of loop iterations left, `i` the current candidate
(the code runs it with `fuel = 253`, `i = 2`, covering `i = 2 .. 254`). -/
def scanLoop (base : String) (existing : List String) : Nat → Nat → Option String
  | 0, _ => none
  | fuel + 1, i =>
    if mkIp base i ∈ existing then scanLoop base existing fuel (i + 1)
    else some (mkIp base i)

/-- `WireGuardManager.get_next_available_ip`, as a function of the CIDR
string and of the set of in-use IPv4 address strings (in the code that
set is collected from `dump_peers()`).  Python errors (`ValueError` from
unpacking/int, `IndexError` on too few octets, and the explicit `raise`)
are all caught by the outer `except` and re-raised with the
`Failed to get next IP:` prefix. -/
def get_next_available_ip (cidr : String) (existing : List String) :
    Except String String :=
  match pySplit "/" cidr with
  | [base_ip, prefixStr] =>
    match pyInt prefixStr with
    | none => .error ("Failed to get next IP: invalid literal for int(): " ++ prefixStr)
    | some _ =>
      match pySplit "." base_ip with
      | p0 :: p1 :: p2 :: _ =>
        let base_network := p0 ++ "." ++ p1 ++ "." ++ p2
        match scanLoop base_network existing 253 2 with
        | some ip => .ok ip
        | none => .error "Failed to get next IP: No available IPv4 addresses"
      | _ => .error "Failed to get next IP: list index out of range"
  | _ => .error "Failed to get next IP: cannot unpack cidr"

/-- The host identifiers of an IPv4 block of the given prefix length: all
offsets from the network address except 0 (network) and `size - 1`
(broadcast).  Used to express the claims' "host identifier" vocabulary. -/
def hostIds (prefixLen : Nat) : List Nat :=
  (List.range (2 ^ (32 - prefixLen) - 1)).filter (fun i => 1 ≤ i)

/-- Numeric value of a dotted-quad IPv4 string (claim vocabulary:
"lies within the block"). -/
def ipv4Val (s : String) : Option Nat :=
  match pySplit "." s with
  | [a, b, c, d] =>
    match pyInt a, pyInt b, pyInt c, pyInt d with
    | some a', some b', some c', some d' =>
      if a' < 256 ∧ b' < 256 ∧ c' < 256 ∧ d' < 256 then
        some (((a'.toNat * 256 + b'.toNat) * 256 + c'.toNat) * 256 + d'.toNat)
      else none
    | _, _, _, _ => none
  | _ => none

/-- Range (network value, block size) of a CIDR string (claim vocabulary). -/
def cidrRange (cidr : String) : Option (Nat × Nat) :=
  match pySplit "/" cidr with
  | [base, p] =>
    match ipv4Val base, pyInt p with
    | some v, some p' =>
      if 0 ≤ p' ∧ p' ≤ 32 then
        let size := 2 ^ (32 - p'.toNat)
        some (v - v % size, size)
      else none
    | _, _ => none
  | _ => none

/-- Whether an address string lies within the block of a CIDR string
(claim vocabulary). -/
def inBlock (cidr ip : String) : Bool :=
  match cidrRange cidr, ipv4Val ip with
  | some (net, size), some v => decide (net ≤ v ∧ v < net + size)
  | _, _ => false

/-- The connectivity computation of `routers/metrics.py`
(`get_all_metrics` and `get_peer_metrics`): `is_connected` is set iff a
handshake timestamp is present and `datetime.now() - latest_handshake <
timedelta(minutes=3)`.  Times are unix epochs in seconds, so the
threshold is 180 seconds. -/
def is_connected (now : Int) (latest_handshake : Option Int) : Bool :=
  match latest_handshake with
  | none => false
  | some t => decide (now - t < 180)

/-- The shell command string built at line 359 of `wireguard.py` to set a
peer's preshared key: the key is interpolated into
`docker exec <c> sh -c "echo '<psk>' | wg set <iface> peer <pub>
preshared-key /dev/stdin"` and the whole string is passed to
`subprocess.run(..., shell=True)`. -/
def pskStdinCmd (container wg iface pub psk : String) : String :=
  "docker exec " ++ container ++ " sh -c \"echo '" ++ psk ++ "' | " ++ wg
    ++ " set " ++ iface ++ " peer " ++ pub ++ " preshared-key /dev/stdin\""

/-- The command strings `add_peer` hands to the shell executor (`_exec`
prefixes its argument with `docker exec <container> `; the preshared-key
step calls `subprocess.run` directly with `pskStdinCmd`).  Conditional
steps mirror Python truthiness: empty key / empty list / zero keepalive
are skipped. -/
def add_peer_commands (container wg iface pub : String)
    (allowed_ips : List String) (psk : Option String)
    (keepalive : Option Int) : List String :=
  ["docker exec " ++ container ++ " " ++ wg ++ " set " ++ iface ++ " peer " ++ pub]
  ++ (match psk with
      | some k => if k ≠ "" then [pskStdinCmd container wg iface pub k] else []
      | none => [])
  ++ (if allowed_ips ≠ [] then
        ["docker exec " ++ container ++ " " ++ wg ++ " set " ++ iface ++ " peer "
          ++ pub ++ " allowed-ips " ++ String.intercalate "," allowed_ips]
      else [])
  ++ (match keepalive with
      | some k => if k ≠ 0 then
          ["docker exec " ++ container ++ " " ++ wg ++ " set " ++ iface ++ " peer "
            ++ pub ++ " persistent-keepalive " ++ toString k]
        else []
      | none => [])

/-- Outcomes of the external steps `add_peer` performs (each an
`Except`-valued control-plane call or file operation). -/
structure AddPeerEnv where
  setPeer : Except String Unit
  setPsk : Except String Unit
  setAllowedIps : Except String Unit
  setKeepalive : Except String Unit
  saveConfig : Except String Unit
  syncConfig : Except String Unit

/-- `WireGuardManager._save_peer_to_config`: the whole body is inside
`try/except Exception`, so a failure is logged as a warning and swallowed
— the method never raises.  Returns the warnings it logs. -/
def save_peer_to_config_warn (r : Except String Unit) : List String :=
  match r with
  | .ok _ => []
  | .error e => ["Failed to save peer to config file (will continue): " ++ e]

/-- `WireGuardManager._sync_config`: same swallow-to-warning structure. -/
def sync_config_warn (r : Except String Unit) : List String :=
  match r with
  | .ok _ => []
  | .error e => ["Failed to sync config (will continue): " ++ e]

/-- `WireGuardManager.add_peer` control flow over the step outcomes: the
live-interface steps run inside the method's `try`, whose `except`
re-raises `Failed to add peer: ...`; the config append and sync swallow
their own failures (warnings), after which the method returns `True`.
The result carries the warnings surfaced by the post-live steps. -/
def add_peer (psk : Option String) (allowed_ips : List String)
    (keepalive : Option Int) (env : AddPeerEnv) :
    Except String (Bool × List String) :=
  match env.setPeer with
  | .error e => .error ("Failed to add peer: " ++ e)
  | .ok _ =>
    match (match psk with
           | some k => if k ≠ "" then env.setPsk else .ok ()
           | none => .ok ()) with
    | .error e => .error ("Failed to add peer: " ++ e)
    | .ok _ =>
      match (if allowed_ips ≠ [] then env.setAllowedIps else .ok ()) with
      | .error e => .error ("Failed to add peer: " ++ e)
      | .ok _ =>
        match (match keepalive with
               | some k => if k ≠ 0 then env.setKeepalive else .ok ()
               | none => .ok ()) with
        | .error e => .error ("Failed to add peer: " ++ e)
        | .ok _ =>
          .ok (true, save_peer_to_config_warn env.saveConfig
                    ++ sync_config_warn env.syncConfig)

/-- The peer dict as consumed by `generate_client_config`. -/
structure ClientPeer where
  private_key : String
  ipv4_address : String
  ipv6_address : Option String
  pre_shared_key : Option String
  allowed_ips : List String
  persistent_keepalive : Option Int

/-- The interface dict as consumed by `generate_client_config`. -/
structure IfaceConfig where
  public_key : String
  dns : Option String
  endpoint : Option String
  port : Int

/-- The AllowedIPs computation of `generate_client_config`: if no entry
contains the substring `0.0.0.0/0`, prepend `0.0.0.0/0`; otherwise keep
the list unchanged. -/
def clientAllowedIps (allowed_ips : List String) : List String :=
  if allowed_ips.any (fun ip => pyIn "0.0.0.0/0" ip) then allowed_ips
  else "0.0.0.0/0" :: allowed_ips

/-- The part of the client config text built before the AllowedIPs line. -/
def clientConfigBefore (peer : ClientPeer) (iface : IfaceConfig) : String :=
  "[Interface]\n"
  ++ "PrivateKey = " ++ peer.private_key ++ "\n"
  ++ "Address = " ++ peer.ipv4_address ++ "/32"
  ++ (match peer.ipv6_address with
      | some v6 => if v6 ≠ "" then ", " ++ v6 ++ "/128" else ""
      | none => "")
  ++ "\n"
  ++ (match iface.dns with
      | some d => if d ≠ "" then
          "DNS = " ++ String.intercalate ", " (pySplit "," d) ++ "\n"
        else ""
      | none => "")
  ++ "\n[Peer]\n"
  ++ "PublicKey = " ++ iface.public_key ++ "\n"
  ++ "PresharedKey = " ++ peer.pre_shared_key.getD "None" ++ "\n"

/-- The part of the client config text built after the AllowedIPs line. -/
def clientConfigAfter (peer : ClientPeer) (iface : IfaceConfig) : String :=
  (match peer.persistent_keepalive with
   | some k => if k ≠ 0 then "PersistentKeepalive = " ++ toString k ++ "\n" else ""
   | none => "")
  ++ (match iface.endpoint with
      | some e => if e ≠ "" then "Endpoint = " ++ e ++ ":" ++ toString iface.port ++ "\n"
        else ""
      | none => "")

/-- `WireGuardManager.generate_client_config`: the config text is built by
successive appends in source order (Python truthiness for the optional
fields: `None`, empty string and `0` skip their line). -/
def generate_client_config (peer : ClientPeer) (iface : IfaceConfig) : String :=
  clientConfigBefore peer iface
  ++ ("AllowedIPs = " ++ String.intercalate ", " (clientAllowedIps peer.allowed_ips) ++ "\n")
  ++ clientConfigAfter peer iface

/-- Concrete `wg show wg0 dump` output: an interface header line followed
by the single peer record of the spec's example. -/
def dumpStreamC6 : String :=
  "IFPUB\tIFPRIV\t51820\toff\nPUB1\t(none)\t1.2.3.4:51820\t10.8.0.2/32\t1700000000\t1000\t2000\t25"

/-- Concrete config document with an Interface section and two peer
sections (peer `AAA` carries a preshared key and allowed-ips). -/
def configTwoPeers : String :=
  "[Interface]\nPrivateKey = IFPRIV\nAddress = 10.8.0.1/24\n\n[Peer]\nPublicKey = AAA\nPresharedKey = PSKA\nAllowedIPs = 10.8.0.2/32\n\n[Peer]\nPublicKey = BBB\nAllowedIPs = 10.8.0.3/32\n"

/-- In-use addresses `10.8.0.2 .. 10.8.0.63`: every host identifier of
`10.8.0.0/26` except 1 is in use (together with `.63`, the broadcast). -/
def usedC4 : List String :=
  (List.range' 2 62).map (mkIp "10.8.0")

/-- In-use addresses `10.8.0.2 .. 10.8.0.254`: the whole scan range of a
/24 block. -/
def usedFull24 : List String :=
  (List.range' 2 253).map (mkIp "10.8.0")

/-- Environment of step outcomes in which the live-interface steps
succeed and the config-file append fails. -/
def envSaveFails : AddPeerEnv :=
  { setPeer := .ok (), setPsk := .ok (), setAllowedIps := .ok ()
    setKeepalive := .ok (), saveConfig := .error "Read-only file system"
    syncConfig := .ok () }

/-! ## Theorems -/

/-- C6: on a dump stream whose interface header line is followed by the
single record `PUB1\t(none)\t1.2.3.4:51820\t10.8.0.2/32\t1700000000\t1000\t2000\t25`,
`dump_peers` yields exactly one entry with `ipv4_address = 10.8.0.2`,
`transfer_rx = 1000`, `transfer_tx = 2000`, `endpoint = 1.2.3.4:51820`,
no preshared key, and `latest_handshake` the timestamp for epoch
1700000000. -/
theorem dump_peers_sample_record :
    dump_peers (.ok dumpStreamC6) =
      [{ public_key := "PUB1"
         pre_shared_key := none
         endpoint := some "1.2.3.4:51820"
         allowed_ips := ["10.8.0.2/32"]
         ipv4_address := some "10.8.0.2"
         ipv6_address := none
         latest_handshake := some 1700000000
         transfer_rx := 1000
         transfer_tx := 2000
         persistent_keepalive := some "25" }] := by
  rfl

/-- C9: whenever the control-plane dump call fails (the `_exec` call
raises), `dump_peers` returns the empty list instead of propagating the
failure. -/
theorem dump_peers_error_empty (e : String) :
    dump_peers (.error e) = [] := rfl

/-- C9 witness: a concrete failing control-plane call. -/
theorem dump_peers_error_empty_witness :
    dump_peers (.error "Unable to access interface: No such device") = [] :=
  dump_peers_error_empty "Unable to access interface: No such device"

/-- C8: `is_connected` is true iff a handshake timestamp is present and
`now - latest_handshake` is below the 3-minute (180 s) threshold; in
particular a handshake 60 s ago is connected, 200 s ago is not, and an
absent handshake is not. -/
theorem is_connected_spec (now : Int) (h : Option Int) :
    (is_connected now h = true ↔ ∃ t, h = some t ∧ now - t < 180)
    ∧ is_connected now (some (now - 60)) = true
    ∧ is_connected now (some (now - 200)) = false
    ∧ is_connected now none = false := by
  refine ⟨?_, ?_, ?_, rfl⟩
  · cases h with
    | none => simp [is_connected]
    | some t => simp [is_connected]
  · simp only [is_connected, decide_eq_true_eq]
    omega
  · simp only [is_connected, decide_eq_false_iff_not]
    omega

/-- C8 witness: the three concrete connectivity checks at a concrete
current time. -/
theorem is_connected_spec_witness :
    is_connected 1700000000 (some (1700000000 - 60)) = true
    ∧ is_connected 1700000000 (some (1700000000 - 200)) = false
    ∧ is_connected 1700000000 none = false :=
  (is_connected_spec 1700000000 none).2

/-- C7: a record line with fewer than 8 tab-separated fields is skipped by
the peer-line loop of `dump_peers`: the result is the same as for the
stream without that line (so the record is absent, the surrounding
records are still processed, and nothing is raised — the function is
total). -/
theorem short_record_skipped (pre suf : List String) (line : String)
    (h : (pySplit "\t" line).length < 8) :
    processPeerLines (pre ++ line :: suf) = processPeerLines (pre ++ suf) := by
  induction pre with
  | nil =>
    by_cases hl : pyStrip line = "" <;>
      simp [processPeerLines, hl, h]
  | cons l ls ih =>
    by_cases hl : pyStrip l = ""
    · simp [processPeerLines, hl, ih]
    · simp only [List.cons_append, processPeerLines, hl, if_false]
      split <;> simp [ih]

/-- C7 witness: a 5-field record between two valid 8-field records is
dropped while both neighbours are kept. -/
theorem short_record_skipped_witness :
    ((pySplit "\t" "PUBX\t(none)\t(none)\t10.8.0.9/32\t0").length < 8)
    ∧ processPeerLines
        ["PUB1\t(none)\t(none)\t10.8.0.2/32\t0\t1\t2\t25",
         "PUBX\t(none)\t(none)\t10.8.0.9/32\t0",
         "PUB2\t(none)\t(none)\t10.8.0.3/32\t0\t3\t4\t25"] =
      processPeerLines
        ["PUB1\t(none)\t(none)\t10.8.0.2/32\t0\t1\t2\t25",
         "PUB2\t(none)\t(none)\t10.8.0.3/32\t0\t3\t4\t25"] := by
  refine ⟨by decide, ?_⟩
  exact short_record_skipped ["PUB1\t(none)\t(none)\t10.8.0.2/32\t0\t1\t2\t25"]
    ["PUB2\t(none)\t(none)\t10.8.0.3/32\t0\t3\t4\t25"]
    "PUBX\t(none)\t(none)\t10.8.0.9/32\t0" (by decide)

/-- C10: the client config's AllowedIPs line is built from
`clientAllowedIps`: when no given entry contains `0.0.0.0/0` the list is
`0.0.0.0/0` followed by the given entries, and when some entry already
contains `0.0.0.0/0` the given list is emitted unchanged. -/
theorem client_config_full_tunnel (p : ClientPeer) (i : IfaceConfig) :
    generate_client_config p i =
      clientConfigBefore p i
        ++ ("AllowedIPs = "
              ++ String.intercalate ", " (clientAllowedIps p.allowed_ips) ++ "\n")
        ++ clientConfigAfter p i
    ∧ (p.allowed_ips.any (fun ip => pyIn "0.0.0.0/0" ip) = false →
        clientAllowedIps p.allowed_ips = "0.0.0.0/0" :: p.allowed_ips)
    ∧ (p.allowed_ips.any (fun ip => pyIn "0.0.0.0/0" ip) = true →
        clientAllowedIps p.allowed_ips = p.allowed_ips) := by
  refine ⟨rfl, ?_, ?_⟩ <;> intro h <;> simp [clientAllowedIps, h]

/-- C10 witness: a peer with only a host route gets the full-tunnel
default prepended. -/
theorem client_config_full_tunnel_witness :
    (["10.66.66.2/32"].any (fun ip => pyIn "0.0.0.0/0" ip) = false)
    ∧ clientAllowedIps ["10.66.66.2/32"] = "0.0.0.0/0" :: ["10.66.66.2/32"] :=
  ⟨by decide,
    (client_config_full_tunnel
      { private_key := "PK", ipv4_address := "10.66.66.2", ipv6_address := none
        pre_shared_key := none, allowed_ips := ["10.66.66.2/32"]
        persistent_keepalive := none }
      { public_key := "IFPUB", dns := none, endpoint := none
        port := 51820 }).2.1 (by decide)⟩

/-- Helper: if some candidate in the scan window is free, the scan
returns the smallest free candidate. -/
theorem scanLoop_finds (base : String) (existing : List String) :
    ∀ fuel i, (∃ j, i ≤ j ∧ j < i + fuel ∧ mkIp base j ∉ existing) →
      ∃ k, scanLoop base existing fuel i = some (mkIp base k)
        ∧ i ≤ k ∧ k < i + fuel ∧ mkIp base k ∉ existing
        ∧ ∀ m, i ≤ m → m < k → mkIp base m ∈ existing := by
  intro fuel
  induction fuel with
  | zero =>
    intro i hex
    obtain ⟨j, h1, h2, _⟩ := hex
    omega
  | succ fuel ih =>
    intro i hex
    by_cases hmem : mkIp base i ∈ existing
    · obtain ⟨j, h1, h2, h3⟩ := hex
      have h1' : i + 1 ≤ j := by
        rcases Nat.eq_or_lt_of_le h1 with he | hlt
        · subst he; exact absurd hmem h3
        · omega
      obtain ⟨k, hk1, hk2, hk3, hk4, hk5⟩ := ih (i + 1) ⟨j, h1', by omega, h3⟩
      refine ⟨k, ?_, by omega, by omega, hk4, ?_⟩
      · simp [scanLoop, hmem, hk1]
      · intro m hm1 hm2
        rcases Nat.eq_or_lt_of_le hm1 with he | hlt
        · subst he; exact hmem
        · exact hk5 m (by omega) hm2
    · refine ⟨i, ?_, Nat.le_refl i, by omega, hmem, ?_⟩
      · simp [scanLoop, hmem]
      · intro m hm1 hm2
        omega

/-- Helper: if every candidate in the scan window is in use, the scan
finds nothing. -/
theorem scanLoop_exhausted (base : String) (existing : List String) :
    ∀ fuel i, (∀ m, i ≤ m → m < i + fuel → mkIp base m ∈ existing) →
      scanLoop base existing fuel i = none := by
  intro fuel
  induction fuel with
  | zero => intro i _; rfl
  | succ fuel ih =>
    intro i hall
    have hmem : mkIp base i ∈ existing := hall i (Nat.le_refl i) (by omega)
    simp only [scanLoop, hmem, if_pos]
    exact ih (i + 1) (fun m h1 h2 => hall m (by omega) (by omega))

/-- C4 (amended): for a `/24` CIDR, whenever some host identifier
`j ∈ [2, 254]` is unused, `get_next_available_ip` returns
`base_network.k` where `k` is the smallest unused host identifier that is
at least 2 — an address inside the block, not in the in-use set.  (For
other prefix lengths the prefix is ignored, so the result can fall
outside the block: see the counterexample.) -/
theorem next_ip_24_smallest (cidr base_ip p0 p1 p2 p3 : String)
    (existing : List String)
    (hc : pySplit "/" cidr = [base_ip, "24"])
    (hb : pySplit "." base_ip = [p0, p1, p2, p3])
    (j : Nat) (hj2 : 2 ≤ j) (hj : j ≤ 254)
    (hfree : mkIp (p0 ++ "." ++ p1 ++ "." ++ p2) j ∉ existing) :
    ∃ k, get_next_available_ip cidr existing
        = .ok (mkIp (p0 ++ "." ++ p1 ++ "." ++ p2) k)
      ∧ 2 ≤ k ∧ k ≤ 254
      ∧ mkIp (p0 ++ "." ++ p1 ++ "." ++ p2) k ∉ existing
      ∧ ∀ m, 2 ≤ m → m < k →
          mkIp (p0 ++ "." ++ p1 ++ "." ++ p2) m ∈ existing := by
  obtain ⟨k, hs, hk2, hk255, hkf, hmin⟩ :=
    scanLoop_finds (p0 ++ "." ++ p1 ++ "." ++ p2) existing 253 2
      ⟨j, hj2, by omega, hfree⟩
  refine ⟨k, ?_, hk2, by omega, hkf, hmin⟩
  have h24 : pyInt "24" = some 24 := rfl
  simp only [get_next_available_ip, hc, h24, hb]
  rw [hs]

/-- C4 witness: on `10.8.0.0/24` with only `10.8.0.2` in use, the
allocator returns the smallest free host identifier. -/
theorem next_ip_24_smallest_witness :
    ∃ k, get_next_available_ip "10.8.0.0/24" ["10.8.0.2"]
        = .ok (mkIp ("10" ++ "." ++ "8" ++ "." ++ "0") k)
      ∧ 2 ≤ k ∧ k ≤ 254
      ∧ mkIp ("10" ++ "." ++ "8" ++ "." ++ "0") k ∉ ["10.8.0.2"]
      ∧ ∀ m, 2 ≤ m → m < k →
          mkIp ("10" ++ "." ++ "8" ++ "." ++ "0") m ∈ ["10.8.0.2"] :=
  next_ip_24_smallest "10.8.0.0/24" "10.8.0.0" "10" "8" "0" "0" ["10.8.0.2"]
    (by decide) (by decide) 3 (by decide) (by decide) (by decide)

/-- C4 counterexample: on the /26 block `10.8.0.0/26` with every host
identifier except 1 in use, the claim's hypothesis holds (the in-use set
does not cover all host identifiers: `10.8.0.1`, host id 1, is free and
inside the block), yet the code returns `10.8.0.64`, which lies outside
the block — the prefix length is parsed but ignored. -/
theorem next_ip_outside_block_cex :
    get_next_available_ip "10.8.0.0/26" usedC4 = .ok "10.8.0.64"
    ∧ inBlock "10.8.0.0/26" "10.8.0.64" = false
    ∧ 1 ∈ hostIds 26
    ∧ "10.8.0.1" ∉ usedC4
    ∧ inBlock "10.8.0.0/26" "10.8.0.1" = true := by
  exact ⟨rfl, rfl, by decide, by decide, rfl⟩

/-- C5 (amended): for a `/24` CIDR, when every host identifier in the
scanned range `[2, 254]` is in use, `get_next_available_ip` fails with
the pool-exhaustion error (`No available IPv4 addresses`, the
implementation of the spec's `AddressPoolExhausted`) rather than
returning an address.  (For other prefix lengths the prefix is ignored:
see the counterexample.) -/
theorem next_ip_24_exhausted (cidr base_ip p0 p1 p2 p3 : String)
    (existing : List String)
    (hc : pySplit "/" cidr = [base_ip, "24"])
    (hb : pySplit "." base_ip = [p0, p1, p2, p3])
    (hall : ∀ m < 255, 2 ≤ m → mkIp (p0 ++ "." ++ p1 ++ "." ++ p2) m ∈ existing) :
    get_next_available_ip cidr existing
      = .error "Failed to get next IP: No available IPv4 addresses" := by
  have hs := scanLoop_exhausted (p0 ++ "." ++ p1 ++ "." ++ p2) existing 253 2
    (fun m h1 h2 => hall m (by omega) h1)
  have h24 : pyInt "24" = some 24 := rfl
  simp only [get_next_available_ip, hc, h24, hb]
  rw [hs]

/-- C5 witness: with `10.8.0.2 .. 10.8.0.254` all in use, allocation on
`10.8.0.0/24` reports exhaustion. -/
theorem next_ip_24_exhausted_witness :
    get_next_available_ip "10.8.0.0/24" usedFull24
      = .error "Failed to get next IP: No available IPv4 addresses" :=
  next_ip_24_exhausted "10.8.0.0/24" "10.8.0.0" "10" "8" "0" "0" usedFull24
    (by decide) (by decide)
    (by
      intro m h255 h2
      refine List.mem_map.mpr ⟨m, ?_, rfl⟩
      rw [List.mem_range'_1]
      omega)

/-- C5 counterexample: on `10.0.0.0/30` the host identifiers are 1 and 2,
so with `10.0.0.2` in use every host address with identifier ≥ 2 is in
use; the claim demands the `AddressPoolExhausted` failure, but the code
returns the address `10.0.0.3` (the block's broadcast address). -/
theorem pool_exhausted_cex_30 :
    get_next_available_ip "10.0.0.0/30" ["10.0.0.2"] = .ok "10.0.0.3"
    ∧ ((hostIds 30).filter (fun i => 2 ≤ i)).map
        (fun i => "10.0.0." ++ toString i) = ["10.0.0.2"]
    ∧ get_next_available_ip "10.0.0.0/30" ["10.0.0.2"]
        ≠ .error "Failed to get next IP: No available IPv4 addresses" := by
  refine ⟨rfl, by decide, ?_⟩
  rw [show get_next_available_ip "10.0.0.0/30" ["10.0.0.2"]
        = Except.ok "10.0.0.3" from rfl]
  intro h
  exact Except.noConfusion h

set_option maxRecDepth 100000 in
/-- C1: evaluation of `_remove_peer_from_config` at a well-formed
two-peer document.  Removing peer `AAA` drops the `[Peer]` header and the
`PublicKey` line but keeps the removed section's remaining body lines
(`PresharedKey = PSKA`, `AllowedIPs = 10.8.0.2/32`), leaving them
orphaned under the Interface section — the matched section is not
excised and the rest of the document is not byte-identical, contradicting
both the claim and the code's own `Skip this entire peer block` comment. -/
theorem remove_peer_orphans_lines :
    remove_peer_from_config "AAA" configTwoPeers =
      "[Interface]\nPrivateKey = IFPRIV\nAddress = 10.8.0.1/24\n\nPresharedKey = PSKA\nAllowedIPs = 10.8.0.2/32\n\n[Peer]\nPublicKey = BBB\nAllowedIPs = 10.8.0.3/32\n"
    ∧ pyIn "PresharedKey = PSKA" (remove_peer_from_config "AAA" configTwoPeers) = true
    ∧ (pySplit "\n" configTwoPeers).count "[Peer]" = 2
    ∧ (pySplit "\n" (remove_peer_from_config "AAA" configTwoPeers)).count "[Peer]" = 1 := by
  exact ⟨rfl, rfl, rfl, rfl⟩

/-- C2 counterexample: for the concrete peer whose preshared key is
`SECRETPSK`, one of the shell command strings `add_peer` passes to the
executor contains the preshared key as a substring — the key does appear
inside an interpolated shell command string. -/
theorem add_peer_psk_interpolated_cex :
    ((add_peer_commands "wg-easy" "wg" "wg0" "PUBKEY" ["10.8.0.2/32"]
        (some "SECRETPSK") (some 25)).any (fun c => pyIn "SECRETPSK" c)) = true := by
  decide

/-- C2 (amended): for every peer created with a (nonempty) preshared key,
`add_peer` delivers the key to `wg` through `/dev/stdin` inside the
container, but it does so by interpolating the key into the shell command
string `docker exec .. sh -c "echo '<psk>' | wg set .. preshared-key
/dev/stdin"` handed to the executor: the issued command contains the key
verbatim and ends with the stdin redirection. -/
theorem add_peer_psk_via_stdin_command (container wg iface pub psk : String)
    (allowed : List String) (ka : Option Int) (h : psk ≠ "") :
    pskStdinCmd container wg iface pub psk ∈
        add_peer_commands container wg iface pub allowed (some psk) ka
    ∧ (∃ a b, pskStdinCmd container wg iface pub psk = a ++ psk ++ b)
    ∧ (∃ a, pskStdinCmd container wg iface pub psk
          = a ++ " preshared-key /dev/stdin\"") := by
  refine ⟨?_, ?_, ?_⟩
  · simp [add_peer_commands, h]
  · exact ⟨"docker exec " ++ container ++ " sh -c \"echo '",
      "' | " ++ wg ++ " set " ++ iface ++ " peer " ++ pub
        ++ " preshared-key /dev/stdin\"",
      by simp [pskStdinCmd, String.append_assoc]⟩
  · exact ⟨"docker exec " ++ container ++ " sh -c \"echo '" ++ psk ++ "' | " ++ wg
        ++ " set " ++ iface ++ " peer " ++ pub,
      by simp [pskStdinCmd, String.append_assoc]⟩

/-- C2 witness: the preshared-key command is among the commands issued
for a concrete peer. -/
theorem add_peer_psk_via_stdin_command_witness :
    pskStdinCmd "wg-easy" "wg" "wg0" "PUB" "PSK123" ∈
      add_peer_commands "wg-easy" "wg" "wg0" "PUB" [] (some "PSK123") none :=
  (add_peer_psk_via_stdin_command "wg-easy" "wg" "wg0" "PUB" "PSK123" [] none
    (by decide)).1

/-- C3: when every live-interface step of `add_peer` succeeds and the
config-file append or the config sync fails, the operation still returns
`True`, with the failure surfaced as a nonempty warning list instead of a
raised error. -/
theorem add_peer_degrades_to_warning (psk : Option String) (ips : List String)
    (ka : Option Int) (env : AddPeerEnv)
    (h1 : env.setPeer = .ok ()) (h2 : env.setPsk = .ok ())
    (h3 : env.setAllowedIps = .ok ()) (h4 : env.setKeepalive = .ok ())
    (h5 : (∃ e, env.saveConfig = .error e) ∨ (∃ e, env.syncConfig = .error e)) :
    ∃ ws, add_peer psk ips ka env = .ok (true, ws) ∧ ws ≠ [] := by
  refine ⟨save_peer_to_config_warn env.saveConfig
      ++ sync_config_warn env.syncConfig, ?_, ?_⟩
  · cases psk <;> cases ka <;>
      simp [add_peer, h1, h2, h3, h4, ite_self]
  · rcases h5 with ⟨e, he⟩ | ⟨e, he⟩ <;>
      simp [save_peer_to_config_warn, sync_config_warn, he, List.append_eq_nil]

/-- C3 witness: live steps succeed, the config append fails with
`Read-only file system`, and `add_peer` still reports success with a
warning. -/
theorem add_peer_degrades_to_warning_witness :
    ∃ ws, add_peer (some "PSK") ["10.8.0.2/32"] (some 25) envSaveFails
        = .ok (true, ws) ∧ ws ≠ [] :=
  add_peer_degrades_to_warning (some "PSK") ["10.8.0.2/32"] (some 25) envSaveFails
    rfl rfl rfl rfl (Or.inl ⟨"Read-only file system", rfl⟩)

end WG
